import Mathlib

/-!
Verification development for the dhecash-backend payment gateway.

The TypeScript handlers are shallowly embedded as pure Lean functions.
Monetary values are rationals; `Number.prototype.toFixed(2)` followed by
`parseFloat` is modelled as rounding to the nearest multiple of 1/100
(half away from zero on the positive values that occur here, i.e. `round`).
Each Prisma call is one write batch; a handler returns, besides its result,
the database after the run together with the trace of database snapshots
taken after each individual write batch (a `prisma.$transaction([...])`
contributes a single batch).  JavaScript truthiness on optional strings
(`!body.transactionId`, `a || b`) is modelled by `truthyOpt` / `jsOr`.
-/

namespace DheCash

/-- Kernel-reducible addition on ℚ (Batteries marks `Rat.add` irreducible,
which would make concrete evaluation by `decide` impossible); agrees with `+`
by `qAdd_eq`. -/
def qAdd (a b : ℚ) : ℚ :=
  Rat.divInt (a.num * (b.den : ℤ) + b.num * (a.den : ℤ)) ((a.den : ℤ) * (b.den : ℤ))

/-- Kernel-reducible subtraction on ℚ; agrees with `-` by `qSub_eq`. -/
def qSub (a b : ℚ) : ℚ :=
  Rat.divInt (a.num * (b.den : ℤ) - b.num * (a.den : ℤ)) ((a.den : ℤ) * (b.den : ℤ))

/-- Kernel-reducible multiplication on ℚ; agrees with `*` by `qMul_eq`. -/
def qMul (a b : ℚ) : ℚ := Rat.divInt (a.num * b.num) ((a.den : ℤ) * (b.den : ℤ))

/-- Kernel-reducible division by 100 on ℚ; agrees with `· / 100` by
`qDiv100_eq`. -/
def qDiv100 (a : ℚ) : ℚ := Rat.divInt a.num ((a.den : ℤ) * 100)

/-- Round half-up to an integer, computably: `⌊y + 1/2⌋` written with integer
floor division.  Agrees with Mathlib's `round` by `roundQ_eq_round`. -/
def roundQ (y : ℚ) : ℤ := Int.fdiv (2 * y.num + (y.den : ℤ)) (2 * (y.den : ℤ))

/-- `parseFloat(x.toFixed(2))`: round to two decimal places (half up).
Agrees with `(round (x * 100) : ℚ) / 100` by `round2_eq`. -/
def round2 (x : ℚ) : ℚ := Rat.divInt (roundQ (qMul x 100)) 100

theorem qAdd_eq (a b : ℚ) : qAdd a b = a + b := by
  have ha : (a.den : ℤ) ≠ 0 := Int.natCast_ne_zero.mpr a.den_nz
  have hb : (b.den : ℤ) ≠ 0 := Int.natCast_ne_zero.mpr b.den_nz
  rw [qAdd, ← Rat.divInt_add_divInt _ _ ha hb, Rat.num_divInt_den, Rat.num_divInt_den]

theorem qSub_eq (a b : ℚ) : qSub a b = a - b := by
  have ha : (a.den : ℤ) ≠ 0 := Int.natCast_ne_zero.mpr a.den_nz
  have hb : (b.den : ℤ) ≠ 0 := Int.natCast_ne_zero.mpr b.den_nz
  rw [qSub, ← Rat.divInt_sub_divInt _ _ ha hb, Rat.num_divInt_den, Rat.num_divInt_den]

theorem qMul_eq (a b : ℚ) : qMul a b = a * b := by
  rw [qMul, ← Rat.divInt_mul_divInt _ _ (Int.natCast_ne_zero.mpr a.den_nz) (Int.natCast_ne_zero.mpr b.den_nz),
    Rat.num_divInt_den, Rat.num_divInt_den]

theorem qDiv100_eq (a : ℚ) : qDiv100 a = a / 100 := by
  rw [qDiv100, Rat.divInt_eq_div]
  push_cast
  rw [div_mul_eq_div_div, Rat.num_div_den]

theorem roundQ_eq_round (y : ℚ) : roundQ y = round y := by
  have hy : y + 1 / 2 = (((2 * y.num + (y.den : ℤ)) : ℤ) : ℚ) / (((2 * y.den : ℕ) : ℕ) : ℚ) := by
    conv_lhs => rw [← Rat.num_div_den y]
    have hden : ((y.den : ℚ)) ≠ 0 := Nat.cast_ne_zero.mpr y.den_nz
    push_cast
    field_simp
    ring
  rw [round_eq, hy, Rat.floor_intCast_div_natCast]
  unfold roundQ
  rw [Int.fdiv_eq_ediv _ (by positivity)]
  push_cast
  rfl

theorem round2_eq (x : ℚ) : round2 x = (round (x * 100) : ℚ) / 100 := by
  unfold round2
  rw [qMul_eq, roundQ_eq_round, Rat.divInt_eq_div]
  norm_num

/-- JS truthiness of an optional string: present and non-empty. -/
def truthyOpt (o : Option String) : Bool :=
  match o with
  | some s => s ≠ ""
  | none => false

/-- JS `a || b || null` on optional strings. -/
def jsOr (a b : Option String) : Option String :=
  if truthyOpt a then a else if truthyOpt b then b else none

/-- Payment channel (`moncash | natcash | stripe`). -/
inductive Channel
  | moncash
  | natcash
  | stripe
deriving DecidableEq, Repr

/-- `FEE_RATES` constant of the payment routes. -/
def FEE_RATES : Channel → ℚ
  | .moncash => Rat.divInt 25 1000
  | .natcash => Rat.divInt 25 1000
  | .stripe => Rat.divInt 35 1000

/-- String name of a channel as it appears in the source. -/
def channelName : Channel → String
  | .moncash => "moncash"
  | .natcash => "natcash"
  | .stripe => "stripe"

/-- Currency enum (`HTG | USD`). -/
inductive Currency
  | HTG
  | USD
deriving DecidableEq, Repr

/-- Payment lifecycle status. -/
inductive PayStatus
  | pending
  | processing
  | completed
  | failed
  | cancelled
  | refunded
  | partially_refunded
  | expired
deriving DecidableEq, Repr

/-- Ledger transaction type. -/
inductive TxnType
  | credit
  | refund
deriving DecidableEq, Repr

/-- Webhook delivery log status. -/
inductive WlStatus
  | pending
  | delivered
  | failed
deriving DecidableEq, Repr

/-- A row of the `payment` table (the fields the core handlers touch). -/
structure Payment where
  id : Nat
  payment_ref : String
  merchant_id : Nat
  order_id : Option String := none
  idempotency_key : Option String := none
  channel : Channel
  status : PayStatus
  amount : ℚ
  currency : Currency
  fee_amount : Option ℚ := none
  fee_rate : Option ℚ := none
  net_amount : Option ℚ := none
  refunded_amount : ℚ := 0
  description : Option String := none
  customer_email : Option String := none
  customer_phone : Option String := none
  customer_name : Option String := none
  customer_id : Option Nat := none
  provider_transaction_id : Option String := none
  provider_redirect_url : Option String := none
  environment : String := "live"
  expires_at : Nat := 0
  completed_at : Option Nat := none
  failed_at : Option Nat := none
  refunded_at : Option Nat := none
  failure_reason : Option String := none
deriving DecidableEq, Repr

/-- A row of the `transaction` (ledger) table. -/
structure Transaction where
  transaction_ref : String
  payment_id : Nat
  merchant_id : Nat
  type : TxnType
  status : String
  amount : ℚ
  currency : Currency
  description : String
deriving DecidableEq, Repr

/-- A row of the `customer` table. -/
structure Customer where
  id : Nat
  merchant_id : Nat
  environment : String
  email : Option String := none
  phone : Option String := none
  name : Option String := none
  total_spent : ℚ := 0
  payment_count : Nat := 0
  first_payment_at : Option Nat := none
  last_payment_at : Option Nat := none
deriving DecidableEq, Repr

/-- A row of the `webhookConfig` table. -/
structure WebhookConfig where
  id : Nat
  merchant_id : Nat
  url : String
  events : List String
  secret : String
  is_active : Bool
deriving DecidableEq, Repr

/-- A row of the `webhookLog` table. -/
structure WebhookLog where
  id : Nat
  webhook_config_id : Nat
  payment_id : Nat
  event_type : String
  status : WlStatus
  http_status : Option Nat := none
  response_body : Option String := none
  attempt_count : Nat := 0
  last_attempt_at : Option Nat := none
  delivered_at : Option Nat := none
  created_at : Nat := 0
deriving DecidableEq, Repr

/-- The relational store. -/
structure Db where
  payments : List Payment
  transactions : List Transaction
  customers : List Customer
  webhook_configs : List WebhookConfig
  webhook_logs : List WebhookLog
deriving DecidableEq, Repr

/-- The empty database. -/
def Db.empty : Db := ⟨[], [], [], [], []⟩

/-- Replace the payment row with the given primary id (Prisma `payment.update`). -/
def setPayment (db : Db) (pid : Nat) (q : Payment) : Db :=
  { db with payments := db.payments.map (fun x => if x.id = pid then q else x) }

/-- Set `customer_id` on the payment row with the given primary id. -/
def setPaymentCustomer (db : Db) (pid : Nat) (cid : Nat) : Db :=
  { db with payments :=
      db.payments.map (fun x => if x.id = pid then { x with customer_id := some cid } else x) }

/-! ## Provider-callback payment updater (src/routes/webhooks/index.ts, updatePaymentStatus) -/

/-- The optional `extra` argument of `updatePaymentStatus`. -/
structure UpdateExtra where
  completed_at : Option Nat := none
  failed_at : Option Nat := none
  failure_reason : Option String := none
  refunded_at : Option Nat := none
  refunded_amount : Option ℚ := none
deriving DecidableEq, Repr

/-- The `updateData` applied by `prisma.payment.update` in `updatePaymentStatus`:
status is set unconditionally; for `completed` the handler stamps `completed_at`
and recomputes `net_amount = amount - (fee_amount || 0)`; for `failed` it stamps
`failed_at` and sets `failure_reason` (a Prisma `undefined` leaves the field
unchanged); for `refunded` it stamps `refunded_at` and overwrites
`refunded_amount` only when the extra value is truthy (present and nonzero). -/
def applyStatusUpdate (p : Payment) (newStatus : PayStatus) (extra : UpdateExtra)
    (now : Nat) : Payment :=
  let p1 : Payment := { p with status := newStatus }
  let p2 : Payment :=
    if newStatus = PayStatus.completed then
      { p1 with completed_at := some (extra.completed_at.getD now),
                net_amount := some (qSub p.amount (p.fee_amount.getD 0)) }
    else p1
  let p3 : Payment :=
    if newStatus = PayStatus.failed then
      { p2 with failed_at := some (extra.failed_at.getD now),
                failure_reason :=
                  match extra.failure_reason with
                  | some r => some r
                  | none => p.failure_reason }
    else p2
  if newStatus = PayStatus.refunded then
    { p3 with refunded_at := some (extra.refunded_at.getD now),
              refunded_amount :=
                match extra.refunded_amount with
                | some r => if r ≠ 0 then r else p.refunded_amount
                | none => p.refunded_amount }
  else p3

/-- The `credit` ledger row inserted when a payment completes. -/
def creditTransaction (p : Payment) (freshTxnRef : String) : Transaction :=
  { transaction_ref := freshTxnRef
    payment_id := p.id
    merchant_id := p.merchant_id
    type := TxnType.credit
    status := "completed"
    amount := p.amount
    currency := p.currency
    description := "Paiement " ++ channelName p.channel ++ " — " ++ p.payment_ref }

/-- The customer `findFirst` filter: same merchant and environment, and the
email or phone matches (each disjunct only present when the payment carries a
truthy value for it). -/
def customerMatches (p : Payment) (c : Customer) : Bool :=
  c.merchant_id = p.merchant_id && c.environment = p.environment &&
    ((truthyOpt p.customer_email && c.email = p.customer_email) ||
     (truthyOpt p.customer_phone && c.phone = p.customer_phone))

/-- `prisma.customer.update` on an existing customer: increment `total_spent`
by the gross amount and `payment_count` by one, bump `last_payment_at`, and
keep the old name unless it was empty (`customer.name || payment.customer_name
|| null`). -/
def updateExistingCustomer (c : Customer) (p : Payment) (now : Nat) : Customer :=
  { c with total_spent := qAdd c.total_spent p.amount
           payment_count := c.payment_count + 1
           last_payment_at := some now
           name := jsOr c.name p.customer_name }

/-- `prisma.customer.create` for a first-time customer. -/
def freshCustomer (p : Payment) (cid : Nat) (now : Nat) : Customer :=
  { id := cid
    merchant_id := p.merchant_id
    environment := p.environment
    email := p.customer_email
    phone := p.customer_phone
    name := p.customer_name
    total_spent := p.amount
    payment_count := 1
    first_payment_at := some now
    last_payment_at := some now }

/-- Result of `updatePaymentStatus`: the returned payment reference (or null),
the final database, and the snapshots after each individual write batch. -/
structure UpdateOutcome where
  payment_ref : Option String
  db : Db
  trace : List Db
deriving DecidableEq, Repr

/-- The customer-synchronization block of `updatePaymentStatus`, entered on the
`completed` path when the payment carries a truthy customer email or phone:
find-or-create the customer, then link `payment.customer_id`.  Returns the
final database preceded by the write-batch snapshots it adds. -/
def customerSync (db2 : Db) (payment : Payment) (freshCustomerId : Nat)
    (now : Nat) : Db × List Db :=
  match db2.customers.find? (customerMatches payment) with
  | some customer =>
    let db3 : Db :=
      { db2 with customers :=
          db2.customers.map (fun c => if c.id = customer.id then updateExistingCustomer customer payment now else c) }
    let db4 := setPaymentCustomer db3 payment.id customer.id
    (db4, [db3, db4])
  | none =>
    let db3 : Db := { db2 with customers := db2.customers ++ [freshCustomer payment freshCustomerId now] }
    let db4 := setPaymentCustomer db3 payment.id freshCustomerId
    (db4, [db3, db4])

/-- Body of `updatePaymentStatus` once the payment row has been located. -/
def updatePaymentFound (db0 : Db) (now : Nat) (freshTxnRef : String)
    (freshCustomerId : Nat) (newStatus : PayStatus) (extra : UpdateExtra)
    (payment : Payment) : UpdateOutcome :=
  if payment.status = newStatus then
    -- Avoid double-processing: no-op, still reporting the payment reference.
    ⟨some payment.payment_ref, db0, []⟩
  else
    let db1 := setPayment db0 payment.id (applyStatusUpdate payment newStatus extra now)
    if newStatus = PayStatus.completed then
      let db2 : Db := { db1 with transactions := db1.transactions ++ [creditTransaction payment freshTxnRef] }
      if truthyOpt payment.customer_email || truthyOpt payment.customer_phone then
        let s := customerSync db2 payment freshCustomerId now
        ⟨some payment.payment_ref, s.1, db1 :: db2 :: s.2⟩
      else
        ⟨some payment.payment_ref, db2, [db1, db2]⟩
    else
      ⟨some payment.payment_ref, db1, [db1]⟩

/-- `updatePaymentStatus(provider_transaction_id, newStatus, extra)`:
locate the payment by provider handle; return null when absent; no-op when the
status already equals the target; otherwise apply the update, and on
`completed` additionally insert the credit ledger row and synchronize the
customer — each Prisma call its own write batch. -/
def updatePaymentStatus (db0 : Db) (now : Nat) (freshTxnRef : String)
    (freshCustomerId : Nat) (ptid : String) (newStatus : PayStatus)
    (extra : UpdateExtra) : UpdateOutcome :=
  match db0.payments.find? (fun p => p.provider_transaction_id = some ptid) with
  | none => ⟨none, db0, []⟩
  | some payment => updatePaymentFound db0 now freshTxnRef freshCustomerId newStatus extra payment

/-! ## Outbound notification dispatch (src/services/notification/index.ts) -/

/-- The `data` part of the outbound payload envelope, built from the payment
row at dispatch time. -/
structure PayloadData where
  payment_ref : String
  order_id : Option String
  channel : Channel
  status : PayStatus
  amount : ℚ
  currency : Currency
  fee_amount : ℚ
  net_amount : ℚ
  provider_transaction_id : Option String
  created_at : Nat
  completed_at : Option Nat
  failed_at : Option Nat
  failure_reason : Option String
deriving DecidableEq, Repr

/-- The payload envelope (`buildPayload`). -/
structure Payload where
  api_version : String
  event_type : String
  created_at : Nat
  data : PayloadData
deriving DecidableEq, Repr

/-- `buildPayload(event_type, data)` with `api_version = "1.0"`. -/
def buildPayload (event_type : String) (now : Nat) (d : PayloadData) : Payload :=
  { api_version := "1.0", event_type := event_type, created_at := now, data := d }

/-- The payload `data` record assembled by `dispatchPaymentEvent` from a
payment row (`Number(x || 0)` on the nullable fee and net amounts). -/
def paymentPayloadData (p : Payment) (created_at : Nat) : PayloadData :=
  { payment_ref := p.payment_ref
    order_id := p.order_id
    channel := p.channel
    status := p.status
    amount := p.amount
    currency := p.currency
    fee_amount := p.fee_amount.getD 0
    net_amount := p.net_amount.getD 0
    provider_transaction_id := p.provider_transaction_id
    created_at := created_at
    completed_at := p.completed_at
    failed_at := p.failed_at
    failure_reason := p.failure_reason }

/-- The job data enqueued on `notifications.webhooks` (`WebhookJobData`). -/
structure WebhookJobData where
  webhook_config_id : Nat
  payment_id : Nat
  event_type : String
  payload : Payload
  attempt : Nat
deriving DecidableEq, Repr

/-- A `webhookQueue.add` call together with its retry options. -/
structure QueuedWebhookJob where
  data : WebhookJobData
  attempts : Nat
  backoff_delay : Nat
deriving DecidableEq, Repr

/-- The webhook configurations `dispatchPaymentEvent` fans out to: the owning
merchant's active configurations whose subscription list contains the event
type or the wildcard. -/
def subscribedWebhooks (db : Db) (p : Payment) (event_type : String) : List WebhookConfig :=
  (db.webhook_configs.filter (fun c => c.merchant_id = p.merchant_id && c.is_active)).filter
    (fun c => event_type ∈ c.events || "*" ∈ c.events)

/-- Result of `dispatchPaymentEvent`: database, write-batch snapshots, and the
jobs enqueued on the webhook queue. -/
structure DispatchOutcome where
  db : Db
  trace : List Db
  jobs : List QueuedWebhookJob
deriving DecidableEq, Repr

/-- Per-configuration loop body of `dispatchPaymentEvent`: insert a `pending`
`WebhookLog` row, then enqueue the delivery job with `attempt = 1`,
`attempts = 5` and exponential backoff at 5000 ms. -/
def dispatchLoop (p : Payment) (event_type : String) (payload : Payload) (now : Nat) :
    Db × List Db × List QueuedWebhookJob → Nat × WebhookConfig → Db × List Db × List QueuedWebhookJob :=
  fun acc idxCfg =>
    let (db, tr, jobs) := acc
    let (logId, cfg) := idxCfg
    let log : WebhookLog :=
      { id := logId
        webhook_config_id := cfg.id
        payment_id := p.id
        event_type := event_type
        status := WlStatus.pending
        created_at := now }
    let db' : Db := { db with webhook_logs := db.webhook_logs ++ [log] }
    let job : QueuedWebhookJob :=
      { data := { webhook_config_id := cfg.id
                  payment_id := p.id
                  event_type := event_type
                  payload := payload
                  attempt := 1 }
        attempts := 5
        backoff_delay := 5000 }
    (db', tr ++ [db'], jobs ++ [job])

/-- `dispatchPaymentEvent(payment_ref, event_type)`: load the payment with the
merchant's active webhook configurations, filter by subscription, and for each
subscribed configuration create a pending log row and enqueue a delivery job.
Fresh log ids are `freshLogId, freshLogId+1, ...` in fan-out order. -/
def dispatchPaymentEvent (db0 : Db) (now : Nat) (freshLogId : Nat)
    (payment_ref : String) (event_type : String) : DispatchOutcome :=
  match db0.payments.find? (fun p => p.payment_ref = payment_ref) with
  | none => ⟨db0, [], []⟩
  | some p =>
    let subs := subscribedWebhooks db0 p event_type
    if subs = [] then ⟨db0, [], []⟩
    else
      let payload := buildPayload event_type now (paymentPayloadData p now)
      let indexed := subs.enum.map (fun ic => (freshLogId + ic.1, ic.2))
      let r := indexed.foldl (dispatchLoop p event_type payload now) (db0, [], [])
      ⟨r.1, r.2.1, r.2.2⟩

/-! ## Provider callback routes (src/routes/webhooks/index.ts) -/

/-- An HTTP handler outcome for a callback route: status code, final database,
write-batch snapshots, and enqueued outbound webhook jobs. -/
structure CallbackOutcome where
  http_status : Nat
  db : Db
  trace : List Db
  jobs : List QueuedWebhookJob
deriving DecidableEq, Repr

/-- The JSON body of a MonCash callback (only the fields the route reads). -/
structure MoncashBody where
  transactionId : Option String := none
  orderId : Option String := none
  -- The route never reads `amount`; the field records what the caller sent.
  amount_numeric : Option ℚ := none
  amount_string : Option String := none
deriving DecidableEq, Repr

/-- `POST /v1/webhooks/moncash`: 400 when `transactionId` or `orderId` is
falsy; otherwise apply the `completed` transition by provider transaction id
and, when a payment reference comes back, dispatch `payment.succeeded`;
always 200 after that. -/
def moncashRoute (db0 : Db) (now : Nat) (freshTxnRef : String)
    (freshCustomerId : Nat) (freshLogId : Nat) (body : MoncashBody) : CallbackOutcome :=
  if ¬ truthyOpt body.transactionId ∨ ¬ truthyOpt body.orderId then
    ⟨400, db0, [], []⟩
  else
    let u := updatePaymentStatus db0 now freshTxnRef freshCustomerId
      (body.transactionId.getD "") PayStatus.completed { completed_at := some now }
    match u.payment_ref with
    | some r =>
      let d := dispatchPaymentEvent u.db now freshLogId r "payment.succeeded"
      ⟨200, d.db, u.trace ++ d.trace, d.jobs⟩
    | none => ⟨200, u.db, u.trace, []⟩

/-- A Stripe event as produced by signature verification
(`stripe.webhooks.constructEvent`). -/
inductive StripeEvent
  | payment_intent_succeeded (id : String)
  | payment_intent_payment_failed (id : String) (last_payment_error_message : Option String)
  | payment_intent_canceled (id : String)
  | charge_refunded (payment_intent : Option String) (amount_refunded : ℚ)
  | other (t : String)
deriving DecidableEq, Repr

/-- `POST /v1/webhooks/stripe`: 400 when the `stripe-signature` header is
missing, 400 when signature validation throws (`verified = none`); otherwise
route the verified event, dispatching the corresponding outbound notification
when the updater returns a payment reference, and return 200. -/
def stripeRoute (db0 : Db) (now : Nat) (freshTxnRef : String)
    (freshCustomerId : Nat) (freshLogId : Nat) (signature : Option String)
    (verified : Option StripeEvent) : CallbackOutcome :=
  if ¬ truthyOpt signature then ⟨400, db0, [], []⟩
  else
    match verified with
    | none => ⟨400, db0, [], []⟩
    | some ev =>
      match ev with
      | .payment_intent_succeeded id =>
        let u := updatePaymentStatus db0 now freshTxnRef freshCustomerId id
          PayStatus.completed { completed_at := some now }
        match u.payment_ref with
        | some r =>
          let d := dispatchPaymentEvent u.db now freshLogId r "payment.succeeded"
          ⟨200, d.db, u.trace ++ d.trace, d.jobs⟩
        | none => ⟨200, u.db, u.trace, []⟩
      | .payment_intent_payment_failed id msg =>
        let reason := msg.getD "Échec de paiement Stripe"
        let u := updatePaymentStatus db0 now freshTxnRef freshCustomerId id
          PayStatus.failed { failed_at := some now, failure_reason := some reason }
        match u.payment_ref with
        | some r =>
          let d := dispatchPaymentEvent u.db now freshLogId r "payment.failed"
          ⟨200, d.db, u.trace ++ d.trace, d.jobs⟩
        | none => ⟨200, u.db, u.trace, []⟩
      | .payment_intent_canceled id =>
        let u := updatePaymentStatus db0 now freshTxnRef freshCustomerId id
          PayStatus.cancelled {}
        match u.payment_ref with
        | some r =>
          let d := dispatchPaymentEvent u.db now freshLogId r "payment.cancelled"
          ⟨200, d.db, u.trace ++ d.trace, d.jobs⟩
        | none => ⟨200, u.db, u.trace, []⟩
      | .charge_refunded pi amount_refunded =>
        if truthyOpt pi then
          let u := updatePaymentStatus db0 now freshTxnRef freshCustomerId (pi.getD "")
            PayStatus.refunded { refunded_at := some now, refunded_amount := some (qDiv100 amount_refunded) }
          match u.payment_ref with
          | some r =>
            let d := dispatchPaymentEvent u.db now freshLogId r "payment.refunded"
            ⟨200, d.db, u.trace ++ d.trace, d.jobs⟩
          | none => ⟨200, u.db, u.trace, []⟩
        else ⟨200, db0, [], []⟩
      | .other _ => ⟨200, db0, [], []⟩

/-! ## Refund route (src payment routes, POST /v1/payments/:ref/refund) -/

/-- Outcome of the refund route. -/
inductive RefundOutcome
  | validation_error
  | payment_not_found
  | refund_not_allowed
  | refund_exceeds_amount
  | refunded_ok (refund_ref : String) (payment_status : PayStatus) (total_refunded : ℚ)
deriving DecidableEq, Repr

/-- Result of the refund route: outcome, final database, write-batch
snapshots (the `prisma.$transaction` pair is one batch). -/
structure RefundResult where
  outcome : RefundOutcome
  db : Db
  trace : List Db
deriving DecidableEq, Repr

/-- The `refund` ledger row created by the refund route
(`description: reason || 'Remboursement'`). -/
def refundTransaction (p : Payment) (merchantId : Nat) (freshTxnRef : String)
    (amount : ℚ) (reason : Option String) : Transaction :=
  { transaction_ref := freshTxnRef
    payment_id := p.id
    merchant_id := merchantId
    type := TxnType.refund
    status := "completed"
    amount := amount
    currency := p.currency
    description := if truthyOpt reason then reason.getD "" else "Remboursement" }

/-- Body of the refund route once the payment row has been located: reject
unless the status is `completed` or `partially_refunded`
(`REFUND_NOT_ALLOWED`), reject when `refunded_amount + amount` exceeds the
gross amount (`REFUND_EXCEEDS_AMOUNT`), and otherwise — atomically in one
`prisma.$transaction` batch — insert the refund ledger row and update the
payment's `refunded_amount` and status (`refunded` iff the new total equals
the gross amount, else `partially_refunded`). -/
def refundFound (db0 : Db) (merchantId : Nat) (amount : ℚ) (reason : Option String)
    (freshTxnRef : String) (payment : Payment) : RefundResult :=
  if payment.status ≠ PayStatus.completed ∧ payment.status ≠ PayStatus.partially_refunded then
    ⟨RefundOutcome.refund_not_allowed, db0, []⟩
  else
    let totalRefunded := qAdd payment.refunded_amount amount
    if totalRefunded > payment.amount then
      ⟨RefundOutcome.refund_exceeds_amount, db0, []⟩
    else
      let isFullRefund := totalRefunded = payment.amount
      let newStatus := if isFullRefund then PayStatus.refunded else PayStatus.partially_refunded
      let updated : Payment := { payment with refunded_amount := totalRefunded, status := newStatus }
      let db1 : Db :=
        { db0 with transactions := db0.transactions ++ [refundTransaction payment merchantId freshTxnRef amount reason]
                   payments := db0.payments.map (fun x => if x.id = payment.id then updated else x) }
      ⟨RefundOutcome.refunded_ok freshTxnRef newStatus totalRefunded, db1, [db1]⟩

/-- `POST /v1/payments/:ref/refund`: validate (`refundPaymentSchema` requires
a positive amount), locate the payment scoped by merchant, then run
`refundFound`. -/
def refundRoute (db0 : Db) (merchantId : Nat) (ref : String) (amount : ℚ)
    (reason : Option String) (freshTxnRef : String) : RefundResult :=
  if ¬ 0 < amount then ⟨RefundOutcome.validation_error, db0, []⟩
  else
    match db0.payments.find? (fun p => p.payment_ref = ref && p.merchant_id = merchantId) with
    | none => ⟨RefundOutcome.payment_not_found, db0, []⟩
    | some payment => refundFound db0 merchantId amount reason freshTxnRef payment

/-! ## Create-payment route (src payment routes, POST /v1/payments) -/

/-- Parsed body of `POST /v1/payments` (after `createPaymentSchema`). -/
structure CreateInput where
  amount : ℚ
  currency : Currency
  channel : Channel
  order_id : Option String := none
  description : Option String := none
  customer_email : Option String := none
  customer_phone : Option String := none
  customer_name : Option String := none
deriving DecidableEq, Repr

/-- The `response` object of the create route; its JSON serialization is both
the response body (`successResponse(response)`) and the value cached under the
idempotency key. -/
structure PaymentResponse where
  payment_ref : String
  channel : Channel
  status : PayStatus
  amount : ℚ
  currency : Currency
  fee_amount : ℚ
  net_amount : ℚ
  description : Option String
  redirect_url : Option String
  expires_at : Nat
  created_at : Nat
deriving DecidableEq, Repr

/-- One Redis `set key value EX ttl` entry of the idempotency cache. -/
structure RedisEntry where
  key : String
  value : PaymentResponse
  ttl_seconds : Nat
deriving DecidableEq, Repr

/-- A `queue.add` on one of the payment channel queues, with its options. -/
structure PaymentQueueAdd where
  queue : String
  payment_ref : String
  attempts : Nat
  backoff_delay : Nat
deriving DecidableEq, Repr

/-- HTTP-layer state threaded through the create route: relational store,
idempotency cache, and the payment jobs enqueued so far. -/
structure Sys where
  db : Db
  redis : List RedisEntry
  payment_jobs : List PaymentQueueAdd
deriving DecidableEq, Repr

/-- Outcome of the create route.  A `replay` is sent with `reply.send`
(HTTP 200); a fresh `created` is sent with `reply.status(201)`. -/
inductive CreateResult
  | validation_error
  | replay (body : PaymentResponse)
  | created (body : PaymentResponse)
deriving DecidableEq, Repr

/-- HTTP status of a create outcome: Fastify `reply.send` defaults to 200 on
the cached-replay path, while the fresh path sets 201 explicitly. -/
def createHttpStatus : CreateResult → Nat
  | CreateResult.validation_error => 400
  | CreateResult.replay _ => 200
  | CreateResult.created _ => 201

/-- `redis.get` over the modelled idempotency store. -/
def redisGet (store : List RedisEntry) (key : String) : Option PaymentResponse :=
  (store.find? (fun e => e.key = key)).map (fun e => e.value)

/-- The payment row inserted by the create route: status `pending`, fee and
net amounts computed from `FEE_RATES` with two-decimal rounding, expiry 30
minutes after creation. -/
def freshPaymentRow (merchantId : Nat) (input : CreateInput)
    (idempotencyKey : Option String) (now freshPaymentId : Nat)
    (freshRef : String) : Payment :=
  { id := freshPaymentId
    payment_ref := freshRef
    merchant_id := merchantId
    order_id := input.order_id
    idempotency_key := idempotencyKey
    channel := input.channel
    status := PayStatus.pending
    amount := input.amount
    currency := input.currency
    fee_amount := some (round2 (qMul input.amount (FEE_RATES input.channel)))
    fee_rate := some (FEE_RATES input.channel)
    net_amount := some (round2 (qSub input.amount (round2 (qMul input.amount (FEE_RATES input.channel)))))
    description := input.description
    customer_email := input.customer_email
    customer_phone := input.customer_phone
    customer_name := input.customer_name
    expires_at := now + 30 * 60 * 1000 }

/-- The `response` object of a fresh create; its serialization is both the
201 response body and the cached idempotency value. -/
def freshResponse (input : CreateInput) (now : Nat) (freshRef : String) : PaymentResponse :=
  { payment_ref := freshRef
    channel := input.channel
    status := PayStatus.pending
    amount := input.amount
    currency := input.currency
    fee_amount := round2 (qMul input.amount (FEE_RATES input.channel))
    net_amount := round2 (qSub input.amount (round2 (qMul input.amount (FEE_RATES input.channel))))
    description := input.description
    redirect_url := none
    expires_at := now + 30 * 60 * 1000
    created_at := now }

/-- The provider job enqueued for a fresh payment: channel queue, 3 attempts,
exponential backoff from 2000 ms. -/
def freshJobAdd (input : CreateInput) (freshRef : String) : PaymentQueueAdd :=
  { queue := "payments." ++ channelName input.channel
    payment_ref := freshRef
    attempts := 3
    backoff_delay := 2000 }

/-- The idempotency-cache miss path of the create route: insert the row,
enqueue the provider job, cache the response with a 24-hour TTL when a key
was supplied, and answer 201. -/
def createFresh (sys : Sys) (merchantId : Nat) (input : CreateInput)
    (idempotencyKey : Option String) (now : Nat) (freshPaymentId : Nat)
    (freshRef : String) : CreateResult × Sys :=
  let payment := freshPaymentRow merchantId input idempotencyKey now freshPaymentId freshRef
  let response := freshResponse input now freshRef
  let redis1 :=
    match idempotencyKey with
    | some k => sys.redis ++ [⟨"idempotency:" ++ k, response, 24 * 60 * 60⟩]
    | none => sys.redis
  (CreateResult.created response,
    ⟨{ sys.db with payments := sys.db.payments ++ [payment] }, redis1,
      sys.payment_jobs ++ [freshJobAdd input freshRef]⟩)

/-- `POST /v1/payments`: validate, consult the idempotency cache
(`idempotency:{key}`, not tenant-scoped) and replay a hit verbatim (sent with
`reply.send`, hence HTTP 200); otherwise run the fresh-create path. -/
def createPayment (sys : Sys) (merchantId : Nat) (input : CreateInput)
    (idempotencyKey : Option String) (now : Nat) (freshPaymentId : Nat)
    (freshRef : String) : CreateResult × Sys :=
  if ¬ (0 < input.amount ∧ input.amount ≤ 10000000) then
    (CreateResult.validation_error, sys)
  else
    match idempotencyKey.bind (fun k => redisGet sys.redis ("idempotency:" ++ k)) with
    | some existing => (CreateResult.replay existing, sys)
    | none => createFresh sys merchantId input idempotencyKey now freshPaymentId freshRef

/-! ## Payment queue worker (src/services/queue/index.ts) -/

/-- The job data enqueued on a payment channel queue. -/
structure PaymentJobData where
  payment_ref : String
  merchant_id : Nat
  amount : ℚ
  currency : Currency
deriving DecidableEq, Repr

/-- Outcome of the provider `createPayment` call inside the worker. -/
inductive ProviderOutcome
  | ok (provider_transaction_id : String) (redirect_url : String)
  | err (message : String)
deriving DecidableEq, Repr

/-- Result of one `processPayment` handler run: database, whether the handler
re-threw (so BullMQ retries), and the `dispatchPaymentEvent` calls it made
(payment reference paired with event name). -/
structure ProcessResult where
  db : Db
  threw : Bool
  dispatched : List (String × String)
deriving DecidableEq, Repr

/-- `processPayment(job, provider)`: mark the payment `processing`; on provider
success record the transaction handle and redirect URL (status stays
`processing` until a callback); on provider error mark the payment `failed`
with the error message as `failure_reason`, dispatch `payment.failed`, and
re-throw so BullMQ retries.  A missing payment row makes the Prisma update
throw before any write. -/
def processPayment (db : Db) (now : Nat) (job : PaymentJobData)
    (outcome : ProviderOutcome) : ProcessResult :=
  match db.payments.find? (fun p => p.payment_ref = job.payment_ref) with
  | none => ⟨db, true, []⟩
  | some payment =>
    let db1 := setPayment db payment.id { payment with status := PayStatus.processing }
    match outcome with
    | ProviderOutcome.ok ptid redirect =>
      let db2 := setPayment db1 payment.id
        { payment with status := PayStatus.processing
                       provider_transaction_id := some ptid
                       provider_redirect_url := some redirect }
      ⟨db2, false, []⟩
    | ProviderOutcome.err message =>
      let db2 := setPayment db1 payment.id
        { payment with status := PayStatus.failed
                       failed_at := some now
                       failure_reason := some message }
      ⟨db2, true, [(job.payment_ref, "payment.failed")]⟩

/-- Result of driving one payment job through BullMQ's retry loop.
`dlq_adds` collects every job enqueued on `payments.dlq` during the run: the
source declares the `payments.dlq` queue and a worker consuming it, but no
code path ever calls `dlqQueue.add`, so the embedding never appends to it. -/
structure JobRunResult where
  db : Db
  attemptsMade : Nat
  finalFailed : Bool
  dlq_adds : List PaymentJobData
  dispatched : List (String × String)
deriving DecidableEq, Repr

/-- BullMQ retry semantics for a payment job with an attempts budget: run the
handler; stop on success; on a throw retry while budget remains; once the
budget is exhausted the job stays in the failed set and the worker's `failed`
listener only logs — nothing is enqueued anywhere. -/
def runPaymentJob (now : Nat) (job : PaymentJobData) :
    Db → List ProviderOutcome → Nat → JobRunResult
  | db, _, 0 => ⟨db, 0, true, [], []⟩
  | db, outcomes, fuel + 1 =>
    let o := outcomes.headD (ProviderOutcome.err "Erreur inconnue")
    let r := processPayment db now job o
    if r.threw then
      if fuel = 0 then ⟨r.db, 1, true, [], r.dispatched⟩
      else
        let rest := runPaymentJob now job r.db outcomes.tail fuel
        ⟨rest.db, rest.attemptsMade + 1, rest.finalFailed, rest.dlq_adds, r.dispatched ++ rest.dispatched⟩
    else ⟨r.db, 1, false, [], r.dispatched⟩

/-! ## Outbound webhook delivery (src/services/notification/index.ts, deliverWebhook) -/

/-- Outcome of the `axios.post` to the merchant endpoint: a 2xx resolution, an
axios rejection carrying an HTTP response (e.g. a 5xx), or an axios rejection
without a response (transport error / timeout). -/
inductive HttpAttemptOutcome
  | success (status : Nat) (body : String)
  | http_error (status : Nat) (message : String)
  | transport_error (message : String)
deriving DecidableEq, Repr

/-- Result of one `deliverWebhook` run. -/
structure DeliverResult where
  db : Db
  threw : Bool
deriving DecidableEq, Repr

/-- The log row `deliverWebhook` updates: the most recent row matching
`(webhook_config_id, payment_id, event_type)` (`findFirst` ordered by
`created_at desc`). -/
def latestMatchingLog (db : Db) (cfgId pid : Nat) (event_type : String) : Option WebhookLog :=
  (db.webhook_logs.filter
      (fun l => l.webhook_config_id = cfgId && l.payment_id = pid && l.event_type = event_type)).foldl
    (fun best l =>
      match best with
      | none => some l
      | some b => if l.created_at > b.created_at then some l else best)
    none

/-- `deliverWebhook(data)`: look up the configuration (missing or inactive →
return without throwing); POST the payload; then — in the `finally` block —
update the most recent matching log row with the outcome: its status, the HTTP
status when one exists (a Prisma `undefined` leaves the column unchanged), the
response body or error message trimmed to 500 characters, `attempt_count`
taken verbatim from the job data, `last_attempt_at`, and `delivered_at` on
success.  Non-2xx and transport errors re-throw so BullMQ retries. -/
def deliverWebhook (db : Db) (now : Nat) (data : WebhookJobData)
    (outcome : HttpAttemptOutcome) : DeliverResult :=
  match db.webhook_configs.find? (fun c => c.id = data.webhook_config_id) with
  | none => ⟨db, false⟩
  | some cfg =>
    if ¬ cfg.is_active then ⟨db, false⟩
    else
      let result : WlStatus × Option Nat × Option String × Option Nat × Bool :=
        match outcome with
        | HttpAttemptOutcome.success s b =>
          (WlStatus.delivered, some s, some (b.take 500), some now, false)
        | HttpAttemptOutcome.http_error s m =>
          (WlStatus.failed, some s, some (m.take 500), none, true)
        | HttpAttemptOutcome.transport_error m =>
          (WlStatus.failed, none, some (m.take 500), none, true)
      let (newStatus, httpStatus, responseBody, deliveredAt, threw) := result
      match latestMatchingLog db data.webhook_config_id data.payment_id data.event_type with
      | none => ⟨db, threw⟩
      | some log =>
        let updated : WebhookLog :=
          { log with status := newStatus
                     http_status := match httpStatus with
                       | some s => some s
                       | none => log.http_status
                     response_body := match responseBody with
                       | some b => some b
                       | none => log.response_body
                     attempt_count := data.attempt
                     last_attempt_at := some now
                     delivered_at := match deliveredAt with
                       | some d => some d
                       | none => log.delivered_at }
        let db1 : Db :=
          { db with webhook_logs := db.webhook_logs.map (fun l => if l.id = log.id then updated else l) }
        ⟨db1, threw⟩

/-- Result of driving one webhook job through BullMQ's retry loop (budget 5).
Webhook jobs are never dead-lettered: the final failure only stays recorded in
the log row. -/
structure WebhookRunResult where
  db : Db
  attemptsMade : Nat
  finalFailed : Bool
deriving DecidableEq, Repr

/-- BullMQ retry loop for one webhook delivery job.  The job data — including
its `attempt` field — is immutable across retries; only the HTTP outcome of
each attempt varies. -/
def runWebhookJob (data : WebhookJobData) :
    Db → Nat → List HttpAttemptOutcome → Nat → WebhookRunResult
  | db, _, _, 0 => ⟨db, 0, true⟩
  | db, now, outcomes, fuel + 1 =>
    let o := outcomes.headD (HttpAttemptOutcome.transport_error "timeout")
    let r := deliverWebhook db now data o
    if r.threw then
      if fuel = 0 then ⟨r.db, 1, true⟩
      else
        let rest := runWebhookJob data r.db (now + 1) outcomes.tail fuel
        ⟨rest.db, rest.attemptsMade + 1, rest.finalFailed⟩
    else ⟨r.db, 1, false⟩

/-! ## Concrete fixtures -/

/-- An active webhook configuration subscribed to all events. -/
def demoConfig : WebhookConfig :=
  { id := 3, merchant_id := 7, url := "https://merchant.example/hook"
    events := ["*"], secret := "whsec", is_active := true }

/-- A processing MonCash payment of 100 HTG carrying a customer email. -/
def demoProcessingPayment : Payment :=
  { id := 1, payment_ref := "pay_a", merchant_id := 7, channel := Channel.moncash
    status := PayStatus.processing, amount := 100, currency := Currency.HTG
    fee_amount := some (Rat.divInt 5 2), fee_rate := some (Rat.divInt 25 1000), net_amount := some (Rat.divInt 195 2)
    provider_transaction_id := some "ABC", customer_email := some "cust@example.com" }

/-- Database holding the processing payment and the demo configuration. -/
def demoDbProcessing : Db :=
  { payments := [demoProcessingPayment], transactions := [], customers := []
    webhook_configs := [demoConfig], webhook_logs := [] }

/-- The demo payment after completion. -/
def demoCompletedPayment : Payment :=
  { demoProcessingPayment with status := PayStatus.completed, completed_at := some 10 }

/-- Database holding the completed payment. -/
def demoDbCompleted : Db := { demoDbProcessing with payments := [demoCompletedPayment] }

/-- The demo payment in terminal `failed` state. -/
def demoFailedPayment : Payment :=
  { demoProcessingPayment with status := PayStatus.failed, failed_at := some 10 }

/-- Database holding the failed payment. -/
def demoDbFailed : Db := { demoDbProcessing with payments := [demoFailedPayment] }

/-- The demo payment freshly created, before provider dispatch. -/
def demoPendingPayment : Payment :=
  { demoProcessingPayment with status := PayStatus.pending, provider_transaction_id := none }

/-- Database holding the pending payment. -/
def demoDbPending : Db := { demoDbProcessing with payments := [demoPendingPayment] }

/-- A pending delivery log row as `dispatchPaymentEvent` creates it. -/
def demoPendingLog : WebhookLog :=
  { id := 11, webhook_config_id := 3, payment_id := 1
    event_type := "payment.succeeded", status := WlStatus.pending, created_at := 10 }

/-- Completed payment plus its pending delivery log. -/
def demoDbWithLog : Db := { demoDbCompleted with webhook_logs := [demoPendingLog] }

/-- The delivery job for the demo log (`attempt = 1` as enqueued). -/
def demoWebhookData : WebhookJobData :=
  { webhook_config_id := 3, payment_id := 1, event_type := "payment.succeeded"
    payload := buildPayload "payment.succeeded" 10 (paymentPayloadData demoCompletedPayment 10)
    attempt := 1 }

/-- A payment job as enqueued by the create route for the demo payment. -/
def demoPaymentJob : PaymentJobData :=
  { payment_ref := "pay_a", merchant_id := 7, amount := 100, currency := Currency.HTG }

/-- An empty HTTP-layer system state. -/
def demoSys : Sys := { db := Db.empty, redis := [], payment_jobs := [] }

/-- A create-payment request body for 100 HTG over MonCash. -/
def demoInput : CreateInput :=
  { amount := 100, currency := Currency.HTG, channel := Channel.moncash, order_id := some "O1" }

/-! ## General lemmas about the embedded handlers -/

/-- `updatePaymentStatus` reduces to `updatePaymentFound` once the lookup by
provider transaction id succeeds. -/
theorem updatePaymentStatus_found (db0 : Db) (now : Nat) (ftr : String) (fcid : Nat)
    (ptid : String) (newStatus : PayStatus) (extra : UpdateExtra) (payment : Payment)
    (hfind : db0.payments.find? (fun p => p.provider_transaction_id = some ptid) = some payment) :
    updatePaymentStatus db0 now ftr fcid ptid newStatus extra =
      updatePaymentFound db0 now ftr fcid newStatus extra payment := by
  unfold updatePaymentStatus
  rw [hfind]

/-! ## C1 — refund handler -/

/-- What the refund route is claimed to do, phrased on its observed result
`r`: wrong status yields `REFUND_NOT_ALLOWED` and no write; an over-refund
yields `REFUND_EXCEEDS_AMOUNT` and no write; otherwise one refund ledger row
with the fresh `txn_*` reference and the requested amount is appended, the
payment's `refunded_amount` grows by the amount, the status flips to
`refunded` exactly when the new total reaches the gross amount (else
`partially_refunded`), and the whole step is a single write batch. -/
def refundSpec (db0 : Db) (merchantId : Nat) (amount : ℚ) (reason : Option String)
    (freshTxnRef : String) (payment : Payment) (r : RefundResult) : Prop :=
  ((payment.status ≠ PayStatus.completed ∧ payment.status ≠ PayStatus.partially_refunded) →
      r = ⟨RefundOutcome.refund_not_allowed, db0, []⟩) ∧
  ((payment.status = PayStatus.completed ∨ payment.status = PayStatus.partially_refunded) →
    (payment.refunded_amount + amount > payment.amount →
        r = ⟨RefundOutcome.refund_exceeds_amount, db0, []⟩) ∧
    (payment.refunded_amount + amount ≤ payment.amount →
        r.outcome = RefundOutcome.refunded_ok freshTxnRef
          (if payment.refunded_amount + amount = payment.amount then PayStatus.refunded
           else PayStatus.partially_refunded) (payment.refunded_amount + amount) ∧
        (refundTransaction payment merchantId freshTxnRef amount reason).type = TxnType.refund ∧
        (refundTransaction payment merchantId freshTxnRef amount reason).transaction_ref = freshTxnRef ∧
        (refundTransaction payment merchantId freshTxnRef amount reason).amount = amount ∧
        r.db.transactions = db0.transactions ++ [refundTransaction payment merchantId freshTxnRef amount reason] ∧
        r.db.payments = db0.payments.map (fun x =>
          if x.id = payment.id then
            { payment with
                refunded_amount := payment.refunded_amount + amount
                status := if payment.refunded_amount + amount = payment.amount then PayStatus.refunded
                          else PayStatus.partially_refunded }
          else x) ∧
        r.trace = [r.db]))

/-- C1: a positive-amount refund on a merchant-owned payment fails with
`REFUND_NOT_ALLOWED` unless the status is `completed` or `partially_refunded`,
fails with `REFUND_EXCEEDS_AMOUNT` when the running total would exceed the
gross amount, and otherwise inserts exactly one fresh refund ledger row,
bumps `refunded_amount`, flips the status to `refunded` iff the total reaches
the gross amount (else `partially_refunded`), all in one database
transaction. -/
theorem C1_refund_handler (db0 : Db) (merchantId : Nat) (ref : String) (amount : ℚ)
    (reason : Option String) (freshTxnRef : String) (payment : Payment)
    (hpos : 0 < amount)
    (hfind : db0.payments.find? (fun p => p.payment_ref = ref && p.merchant_id = merchantId) = some payment) :
    refundSpec db0 merchantId amount reason freshTxnRef payment
      (refundRoute db0 merchantId ref amount reason freshTxnRef) := by
  have he : refundRoute db0 merchantId ref amount reason freshTxnRef =
      refundFound db0 merchantId amount reason freshTxnRef payment := by
    unfold refundRoute
    rw [if_neg (not_not_intro hpos), hfind]
  unfold refundSpec
  rw [he]
  unfold refundFound
  simp only [qAdd_eq]
  refine ⟨fun h => by rw [if_pos h], fun hs => ?_⟩
  have hneg : ¬ (payment.status ≠ PayStatus.completed ∧ payment.status ≠ PayStatus.partially_refunded) := by
    rcases hs with h | h <;> simp [h]
  rw [if_neg hneg]
  refine ⟨fun hgt => by rw [if_pos hgt], fun hle => ?_⟩
  rw [if_neg (not_lt.mpr hle)]
  exact ⟨rfl, rfl, rfl, rfl, rfl, rfl, rfl⟩

/-- C1 witness: refunding 40 of the completed 100 HTG demo payment satisfies
the hypotheses and yields a partial refund. -/
theorem C1_refund_handler_witness :
    (0 : ℚ) < 40 ∧
    demoDbCompleted.payments.find? (fun p => p.payment_ref = "pay_a" && p.merchant_id = 7) =
      some demoCompletedPayment ∧
    refundSpec demoDbCompleted 7 40 none "txn_r" demoCompletedPayment
      (refundRoute demoDbCompleted 7 "pay_a" 40 none "txn_r") :=
  ⟨by norm_num, by decide,
    C1_refund_handler demoDbCompleted 7 "pay_a" 40 none "txn_r" demoCompletedPayment
      (by norm_num) (by decide)⟩

/-! ## C2 — atomicity of the completion transition -/

/-- `applyStatusUpdate` keeps the primary id. -/
theorem applyStatusUpdate_id (p : Payment) (s : PayStatus) (extra : UpdateExtra) (now : Nat) :
    (applyStatusUpdate p s extra now).id = p.id := by
  unfold applyStatusUpdate
  dsimp only
  split_ifs <;> rfl

/-- `applyStatusUpdate` sets the requested status. -/
theorem applyStatusUpdate_status (p : Payment) (s : PayStatus) (extra : UpdateExtra) (now : Nat) :
    (applyStatusUpdate p s extra now).status = s := by
  unfold applyStatusUpdate
  dsimp only
  split_ifs <;> rfl

/-- The customer-synchronization block always performs exactly two write
batches (customer update-or-create, then the payment link). -/
theorem customerSync_snapshots (db2 : Db) (payment : Payment) (fcid now : Nat) :
    (customerSync db2 payment fcid now).2.length = 2 := by
  unfold customerSync
  split <;> rfl

/-- The customer-synchronization block never touches the ledger. -/
theorem customerSync_transactions (db2 : Db) (payment : Payment) (fcid now : Nat) :
    (customerSync db2 payment fcid now).1.transactions = db2.transactions := by
  unfold customerSync
  split <;> rfl

/-- C2 claim as stated: a provider callback that completes a payment commits
the status change, the credit ledger insert and the customer upsert in a
single database write (at most one write batch). -/
def completionAtomic (db0 : Db) (now : Nat) (ftr : String) (fcid : Nat) (ptid : String) : Prop :=
  (updatePaymentStatus db0 now ftr fcid ptid PayStatus.completed { completed_at := some now }).trace.length ≤ 1

/-- C2 counterexample: on the processing demo payment (which carries a
customer email) the completion callback issues four separate write batches,
and after the first batch alone the payment row is already `completed` while
no credit transaction row exists — the writes are not atomic. -/
theorem C2_counterexample :
    ¬ completionAtomic demoDbProcessing 20 "txn_c" 99 "ABC" ∧
    ((updatePaymentStatus demoDbProcessing 20 "txn_c" 99 "ABC" PayStatus.completed
        { completed_at := some 20 }).trace.headD Db.empty).payments.map Payment.status =
      [PayStatus.completed] ∧
    ((updatePaymentStatus demoDbProcessing 20 "txn_c" 99 "ABC" PayStatus.completed
        { completed_at := some 20 }).trace.headD Db.empty).transactions = [] := by
  refine ⟨?_, by decide, by decide⟩
  unfold completionAtomic
  decide

/-- What a completing callback actually does, write-wise, when the payment
carries customer contact data: four sequential write batches — payment status
update, credit insert, customer update-or-create, customer link — with the
credit row absent from the first snapshot. -/
def completionWriteSequence (db0 : Db) (now : Nat) (ftr : String)
    (payment : Payment) (u : UpdateOutcome) : Prop :=
  u.payment_ref = some payment.payment_ref ∧
  u.trace.length = 4 ∧
  u.trace.take 2 =
    [setPayment db0 payment.id (applyStatusUpdate payment PayStatus.completed { completed_at := some now } now),
     { setPayment db0 payment.id (applyStatusUpdate payment PayStatus.completed { completed_at := some now } now) with
         transactions := db0.transactions ++ [creditTransaction payment ftr] }] ∧
  (applyStatusUpdate payment PayStatus.completed { completed_at := some now } now).status = PayStatus.completed ∧
  u.db.transactions = db0.transactions ++ [creditTransaction payment ftr] ∧
  (u.trace.headD Db.empty).transactions = db0.transactions

/-- C2 amended: the completion transition is not applied in a single database
write; it is four sequential batches (status update, credit insert, customer
write, customer link), so the intermediate state after the first batch has
the payment `completed` with no credit row yet. -/
theorem C2_completion_write_sequence (db0 : Db) (now : Nat) (ftr : String) (fcid : Nat)
    (ptid : String) (payment : Payment)
    (hfind : db0.payments.find? (fun p => p.provider_transaction_id = some ptid) = some payment)
    (hstatus : payment.status ≠ PayStatus.completed)
    (hcust : (truthyOpt payment.customer_email || truthyOpt payment.customer_phone) = true) :
    completionWriteSequence db0 now ftr payment
      (updatePaymentStatus db0 now ftr fcid ptid PayStatus.completed { completed_at := some now }) := by
  rw [updatePaymentStatus_found db0 now ftr fcid ptid PayStatus.completed
    { completed_at := some now } payment hfind]
  unfold completionWriteSequence updatePaymentFound
  rw [if_neg hstatus, if_pos rfl, if_pos hcust]
  dsimp only
  refine ⟨rfl, ?_, rfl, applyStatusUpdate_status payment PayStatus.completed { completed_at := some now } now, ?_, rfl⟩
  · simp [customerSync_snapshots]
  · rw [customerSync_transactions]
    rfl

/-- C2 witness: the amended statement holds on the processing demo payment. -/
theorem C2_completion_write_sequence_witness :
    demoDbProcessing.payments.find? (fun p => p.provider_transaction_id = some "ABC") =
      some demoProcessingPayment ∧
    demoProcessingPayment.status ≠ PayStatus.completed ∧
    (truthyOpt demoProcessingPayment.customer_email || truthyOpt demoProcessingPayment.customer_phone) = true ∧
    completionWriteSequence demoDbProcessing 20 "txn_c" demoProcessingPayment
      (updatePaymentStatus demoDbProcessing 20 "txn_c" 99 "ABC" PayStatus.completed
        { completed_at := some 20 }) :=
  ⟨by decide, by decide, by decide,
    C2_completion_write_sequence demoDbProcessing 20 "txn_c" 99 "ABC" demoProcessingPayment
      (by decide) (by decide) (by decide)⟩

/-! ## C3 — state-machine transition enforcement -/

/-- Modelled from the spec (§4.E and the C3 claim text): the valid transition
graph `pending → processing → \x7bcompleted, failed, cancelled, expired\x7d`,
`completed → partially_refunded → refunded`, `completed → refunded`. -/
def specValidTransition : PayStatus → PayStatus → Bool
  | PayStatus.pending, PayStatus.processing => true
  | PayStatus.processing, PayStatus.completed => true
  | PayStatus.processing, PayStatus.failed => true
  | PayStatus.processing, PayStatus.cancelled => true
  | PayStatus.processing, PayStatus.expired => true
  | PayStatus.completed, PayStatus.partially_refunded => true
  | PayStatus.completed, PayStatus.refunded => true
  | PayStatus.partially_refunded, PayStatus.refunded => true
  | _, _ => false

/-- C3 counterexample: `failed → completed` is outside the transition graph,
yet the callback handler applies it to the failed demo payment instead of
rejecting or no-opping it. -/
theorem C3_counterexample :
    specValidTransition PayStatus.failed PayStatus.completed = false ∧
    demoFailedPayment.status = PayStatus.failed ∧
    (updatePaymentStatus demoDbFailed 20 "txn_c" 99 "ABC" PayStatus.completed
        { completed_at := some 20 }).db.payments.map Payment.status = [PayStatus.completed] ∧
    (updatePaymentStatus demoDbFailed 20 "txn_c" 99 "ABC" PayStatus.completed
        { completed_at := some 20 }).db ≠ demoDbFailed := by
  refine ⟨rfl, rfl, by decide, by decide⟩

/-- What the handler actually enforces: a no-op exactly when the current
status equals the target, and otherwise the requested status is applied to
the payment row unconditionally — the transition graph is never consulted. -/
def statusTransitionSpec (db0 : Db) (newStatus : PayStatus) (payment : Payment)
    (u : UpdateOutcome) : Prop :=
  (payment.status = newStatus → u = ⟨some payment.payment_ref, db0, []⟩) ∧
  (payment.status ≠ newStatus →
    (∀ x ∈ u.db.payments, x.id = payment.id → x.status = newStatus) ∧
    (∃ x ∈ u.db.payments, x.id = payment.id ∧ x.status = newStatus))

/-- The payment-link map applied by the customer-synchronization block. -/
def linkCustomerId (pid cid : Nat) (x : Payment) : Payment :=
  if x.id = pid then { x with customer_id := some cid } else x

/-- The payments table after `customerSync` is the input table with the
customer link applied to the payment's row. -/
theorem customerSync_payments (db2 : Db) (payment : Payment) (fcid now : Nat) :
    ∃ cid, (customerSync db2 payment fcid now).1.payments =
      db2.payments.map (linkCustomerId payment.id cid) := by
  unfold customerSync
  rcases db2.customers.find? (customerMatches payment) with _ | cust
  · exact ⟨fcid, rfl⟩
  · exact ⟨cust.id, rfl⟩

/-- The final database of `updatePaymentFound` (when not a no-op) is the
status-updated database with, at most, a customer link applied on top. -/
theorem updatePaymentFound_payments (db0 : Db) (now : Nat) (ftr : String) (fcid : Nat)
    (newStatus : PayStatus) (extra : UpdateExtra) (payment : Payment)
    (h : payment.status ≠ newStatus) :
    ∃ link : Payment → Payment,
      (∀ x, (link x).status = x.status ∧ (link x).id = x.id) ∧
      (updatePaymentFound db0 now ftr fcid newStatus extra payment).db.payments =
        (setPayment db0 payment.id (applyStatusUpdate payment newStatus extra now)).payments.map link := by
  unfold updatePaymentFound
  rw [if_neg h]
  by_cases hc : newStatus = PayStatus.completed
  · rw [if_pos hc]
    by_cases hcu : (truthyOpt payment.customer_email || truthyOpt payment.customer_phone) = true
    · rw [if_pos hcu]
      dsimp only
      obtain ⟨cid, hcp⟩ := customerSync_payments _ payment fcid now
      exact ⟨linkCustomerId payment.id cid,
        fun x => by unfold linkCustomerId; by_cases hx : x.id = payment.id <;> simp [hx], hcp⟩
    · rw [if_neg hcu]
      exact ⟨id, fun x => ⟨rfl, rfl⟩, (List.map_id _).symm⟩
  · rw [if_neg hc]
    exact ⟨id, fun x => ⟨rfl, rfl⟩, (List.map_id _).symm⟩

/-- C3 amended: the handler no-ops when the current status already equals the
target and otherwise applies the requested status to the located payment row
regardless of the transition graph. -/
theorem C3_transition_behavior (db0 : Db) (now : Nat) (ftr : String) (fcid : Nat)
    (ptid : String) (newStatus : PayStatus) (extra : UpdateExtra) (payment : Payment)
    (hfind : db0.payments.find? (fun p => p.provider_transaction_id = some ptid) = some payment) :
    statusTransitionSpec db0 newStatus payment
      (updatePaymentStatus db0 now ftr fcid ptid newStatus extra) := by
  rw [updatePaymentStatus_found db0 now ftr fcid ptid newStatus extra payment hfind]
  have hmem : payment ∈ db0.payments := List.mem_of_find?_eq_some hfind
  constructor
  · intro h
    unfold updatePaymentFound
    rw [if_pos h]
  · intro h
    obtain ⟨link, hlink, hpay⟩ :=
      updatePaymentFound_payments db0 now ftr fcid newStatus extra payment h
    rw [hpay]
    constructor
    · intro x hx hxid
      obtain ⟨y, hy, rfl⟩ := List.mem_map.mp hx
      rw [(hlink y).1]
      simp only [setPayment, List.mem_map] at hy
      obtain ⟨z, _, rfl⟩ := hy
      by_cases hz : z.id = payment.id
      · rw [if_pos hz]
        exact applyStatusUpdate_status payment newStatus extra now
      · exfalso
        rw [(hlink _).2, if_neg hz] at hxid
        exact hz hxid
    · have hfa : (fun x => if x.id = payment.id then applyStatusUpdate payment newStatus extra now else x) payment =
          applyStatusUpdate payment newStatus extra now := by
        simp
      refine ⟨link (applyStatusUpdate payment newStatus extra now), ?_, ?_, ?_⟩
      · apply List.mem_map_of_mem link
        show _ ∈ db0.payments.map (fun x => if x.id = payment.id then applyStatusUpdate payment newStatus extra now else x)
        exact List.mem_map.mpr ⟨payment, hmem, hfa⟩
      · rw [(hlink _).2]
        exact applyStatusUpdate_id payment newStatus extra now
      · rw [(hlink _).1]
        exact applyStatusUpdate_status payment newStatus extra now

/-- C3 witness: the amended statement holds on the failed demo payment with a
`completed` target. -/
theorem C3_transition_behavior_witness :
    demoDbFailed.payments.find? (fun p => p.provider_transaction_id = some "ABC") =
      some demoFailedPayment ∧
    statusTransitionSpec demoDbFailed PayStatus.completed demoFailedPayment
      (updatePaymentStatus demoDbFailed 20 "txn_c" 99 "ABC" PayStatus.completed
        { completed_at := some 20 }) :=
  ⟨by decide,
    C3_transition_behavior demoDbFailed 20 "txn_c" 99 "ABC" PayStatus.completed
      { completed_at := some 20 } demoFailedPayment (by decide)⟩

/-! ## C5 / C10 — callback replay behaviour -/

/-- One dispatch-loop step leaves payments, transactions and customers alone,
appends one pending log row and one queue add. -/
theorem dispatch_foldl_spec (p : Payment) (et : String) (pl : Payload) (now : Nat) :
    ∀ (l : List (Nat × WebhookConfig)) (acc : Db × List Db × List QueuedWebhookJob),
      ∃ newLogs newJobs,
        (l.foldl (dispatchLoop p et pl now) acc).1 =
          { acc.1 with webhook_logs := acc.1.webhook_logs ++ newLogs } ∧
        (l.foldl (dispatchLoop p et pl now) acc).2.2 = acc.2.2 ++ newJobs ∧
        newLogs.length = l.length ∧ newJobs.length = l.length ∧
        (∀ lg ∈ newLogs, lg.status = WlStatus.pending ∧ lg.payment_id = p.id ∧ lg.event_type = et) ∧
        (∀ j ∈ newJobs, j.data.attempt = 1 ∧ j.attempts = 5 ∧ j.backoff_delay = 5000 ∧
          j.data.payment_id = p.id ∧ j.data.event_type = et ∧ j.data.payload = pl) := by
  intro l
  induction l with
  | nil =>
    intro acc
    exact ⟨[], [], by simp, by simp, rfl, rfl, by simp, by simp⟩
  | cons hd tl ih =>
    intro acc
    obtain ⟨nl, nj, h1, h2, h3, h4, h5, h6⟩ := ih (dispatchLoop p et pl now acc hd)
    refine ⟨({ id := hd.1, webhook_config_id := hd.2.id, payment_id := p.id, event_type := et, status := WlStatus.pending, created_at := now } : WebhookLog) :: nl, ({ data := { webhook_config_id := hd.2.id, payment_id := p.id, event_type := et, payload := pl, attempt := 1 }, attempts := 5, backoff_delay := 5000 } : QueuedWebhookJob) :: nj, ?_, ?_, by simpa using h3, by simpa using h4, ?_, ?_⟩
    · rw [List.foldl_cons, h1]
      unfold dispatchLoop
      simp
    · rw [List.foldl_cons, h2]
      unfold dispatchLoop
      simp
    · intro lg hlg
      rcases List.mem_cons.mp hlg with rfl | hlg
      · exact ⟨rfl, rfl, rfl⟩
      · exact h5 lg hlg
    · intro j hj
      rcases List.mem_cons.mp hj with rfl | hj
      · exact ⟨rfl, rfl, rfl, rfl, rfl, rfl⟩
      · exact h6 j hj

/-- `dispatchPaymentEvent` never touches the payments table. -/
theorem dispatchPaymentEvent_payments (db : Db) (now flid : Nat) (ref et : String) :
    (dispatchPaymentEvent db now flid ref et).db.payments = db.payments := by
  unfold dispatchPaymentEvent
  split
  · rfl
  · rename_i p hfound
    dsimp only
    split
    · rfl
    · obtain ⟨nl, nj, h1, -, -, -, -, -⟩ :=
        dispatch_foldl_spec p et (buildPayload et now (paymentPayloadData p now)) now
          ((subscribedWebhooks db p et).enum.map (fun ic => (flid + ic.1, ic.2))) (db, [], [])
      rw [h1]

/-- Full effect of `dispatchPaymentEvent` when the payment is found: the
database gains one pending log row per subscribed active configuration, and
one delivery job (`attempt = 1`, 5 attempts, 5000 ms backoff) is enqueued per
configuration. -/
theorem dispatchPaymentEvent_spec (db : Db) (now flid : Nat) (et : String) (p : Payment)
    (hfind : db.payments.find? (fun q => q.payment_ref = p.payment_ref) = some p) :
    ∃ newLogs,
      (dispatchPaymentEvent db now flid p.payment_ref et).db =
        { db with webhook_logs := db.webhook_logs ++ newLogs } ∧
      newLogs.length = (subscribedWebhooks db p et).length ∧
      (dispatchPaymentEvent db now flid p.payment_ref et).jobs.length =
        (subscribedWebhooks db p et).length ∧
      (∀ lg ∈ newLogs, lg.status = WlStatus.pending ∧ lg.payment_id = p.id ∧ lg.event_type = et) ∧
      (∀ j ∈ (dispatchPaymentEvent db now flid p.payment_ref et).jobs,
        j.data.attempt = 1 ∧ j.attempts = 5 ∧ j.backoff_delay = 5000 ∧
        j.data.payment_id = p.id ∧ j.data.event_type = et) := by
  obtain ⟨nl, nj, h1, h2, h3, h4, h5, h6⟩ :=
    dispatch_foldl_spec p et (buildPayload et now (paymentPayloadData p now)) now
      ((subscribedWebhooks db p et).enum.map (fun ic => (flid + ic.1, ic.2))) (db, [], [])
  by_cases hs : subscribedWebhooks db p et = []
  · have heq : dispatchPaymentEvent db now flid p.payment_ref et = ⟨db, [], []⟩ := by
      unfold dispatchPaymentEvent
      rw [hfind]
      dsimp only
      rw [if_pos hs]
    rw [heq]
    exact ⟨[], by simp, by simp [hs], by simp [hs], by simp, by simp⟩
  · have hdb : (dispatchPaymentEvent db now flid p.payment_ref et).db =
        { db with webhook_logs := db.webhook_logs ++ nl } := by
      unfold dispatchPaymentEvent
      rw [hfind]
      dsimp only
      rw [if_neg hs]
      exact h1
    have hjobs : (dispatchPaymentEvent db now flid p.payment_ref et).jobs = nj := by
      unfold dispatchPaymentEvent
      rw [hfind]
      dsimp only
      rw [if_neg hs]
      exact h2
    refine ⟨nl, hdb, ?_, ?_, h5, ?_⟩
    · rw [h3]
      simp
    · rw [hjobs, h4]
      simp
    · intro j hj
      rw [hjobs] at hj
      obtain ⟨a1, a2, a3, a4, a5, _⟩ := h6 j hj
      exact ⟨a1, a2, a3, a4, a5⟩

/-- C5 spec: a MonCash callback whose target status equals the payment's
current status leaves the payment row unchanged — the updater returns the
payment reference without any write — and the endpoint still answers 200. -/
def replayNoopSpec (db0 : Db) (payment : Payment) (u : UpdateOutcome)
    (r : CallbackOutcome) : Prop :=
  u.payment_ref = some payment.payment_ref ∧ u.db = db0 ∧ u.trace = [] ∧
  r.http_status = 200 ∧ r.db.payments = db0.payments

/-- C5: replaying an authenticated MonCash callback for a payment already at
`completed` is a no-op on the payment row (the handler reports success and
performs no write) and the endpoint still returns HTTP 200. -/
theorem C5_replay_noop (db0 : Db) (now : Nat) (ftr : String) (fcid flid : Nat)
    (body : MoncashBody) (payment : Payment)
    (htid : truthyOpt body.transactionId = true)
    (hoid : truthyOpt body.orderId = true)
    (hfind : db0.payments.find?
      (fun p => p.provider_transaction_id = some (body.transactionId.getD "")) = some payment)
    (hstatus : payment.status = PayStatus.completed) :
    replayNoopSpec db0 payment
      (updatePaymentStatus db0 now ftr fcid (body.transactionId.getD "")
        PayStatus.completed { completed_at := some now })
      (moncashRoute db0 now ftr fcid flid body) := by
  have hu : updatePaymentStatus db0 now ftr fcid (body.transactionId.getD "")
      PayStatus.completed { completed_at := some now } = ⟨some payment.payment_ref, db0, []⟩ := by
    rw [updatePaymentStatus_found _ _ _ _ _ _ _ _ hfind]
    unfold updatePaymentFound
    rw [if_pos hstatus]
  have hcond : ¬ (¬ truthyOpt body.transactionId = true ∨ ¬ truthyOpt body.orderId = true) := by
    simp [htid, hoid]
  unfold replayNoopSpec moncashRoute
  rw [if_neg hcond, hu]
  exact ⟨rfl, rfl, rfl, rfl,
    dispatchPaymentEvent_payments db0 now flid payment.payment_ref "payment.succeeded"⟩

/-- C5 witness: replaying the completion callback on the completed demo
payment. -/
theorem C5_replay_noop_witness :
    truthyOpt (some "ABC") = true ∧
    demoDbCompleted.payments.find?
      (fun p => p.provider_transaction_id = some ((some "ABC").getD "")) = some demoCompletedPayment ∧
    replayNoopSpec demoDbCompleted demoCompletedPayment
      (updatePaymentStatus demoDbCompleted 30 "txn_d" 99 ((some "ABC").getD "")
        PayStatus.completed { completed_at := some 30 })
      (moncashRoute demoDbCompleted 30 "txn_d" 99 500
        { transactionId := some "ABC", orderId := some "O1" }) :=
  ⟨by decide, by decide,
    C5_replay_noop demoDbCompleted 30 "txn_d" 99 500
      { transactionId := some "ABC", orderId := some "O1" } demoCompletedPayment
      (by decide) (by decide) (by decide) (by decide)⟩

/-- C10 spec: the already-at-target callback still fans out fresh merchant
notifications — one new pending `WebhookLog` row and one new delivery job
(`attempt = 1`, budget 5) per subscribed active configuration — while the
payment rows stay untouched and the endpoint answers 200. -/
def replayDispatchSpec (db0 : Db) (payment : Payment) (et : String)
    (r : CallbackOutcome) : Prop :=
  r.http_status = 200 ∧
  r.db.payments = db0.payments ∧
  r.jobs.length = (subscribedWebhooks db0 payment et).length ∧
  (∀ j ∈ r.jobs, j.data.attempt = 1 ∧ j.attempts = 5 ∧ j.data.payment_id = payment.id ∧
    j.data.event_type = et) ∧
  ∃ newLogs, r.db.webhook_logs = db0.webhook_logs ++ newLogs ∧
    newLogs.length = (subscribedWebhooks db0 payment et).length ∧
    ∀ lg ∈ newLogs, lg.status = WlStatus.pending ∧ lg.payment_id = payment.id ∧
      lg.event_type = et

/-- C10: a replayed (at-least-once) MonCash callback for a payment already at
`completed` leaves the payment row unchanged yet dispatches a fresh merchant
notification for every subscribed active webhook configuration — duplicate
outbound deliveries. -/
theorem C10_replay_duplicate_dispatch (db0 : Db) (now : Nat) (ftr : String)
    (fcid flid : Nat) (body : MoncashBody) (payment : Payment)
    (htid : truthyOpt body.transactionId = true)
    (hoid : truthyOpt body.orderId = true)
    (hfind : db0.payments.find?
      (fun p => p.provider_transaction_id = some (body.transactionId.getD "")) = some payment)
    (hstatus : payment.status = PayStatus.completed)
    (hfind2 : db0.payments.find? (fun q => q.payment_ref = payment.payment_ref) = some payment) :
    replayDispatchSpec db0 payment "payment.succeeded"
      (moncashRoute db0 now ftr fcid flid body) := by
  have hu : updatePaymentStatus db0 now ftr fcid (body.transactionId.getD "")
      PayStatus.completed { completed_at := some now } = ⟨some payment.payment_ref, db0, []⟩ := by
    rw [updatePaymentStatus_found _ _ _ _ _ _ _ _ hfind]
    unfold updatePaymentFound
    rw [if_pos hstatus]
  have hcond : ¬ (¬ truthyOpt body.transactionId = true ∨ ¬ truthyOpt body.orderId = true) := by
    simp [htid, hoid]
  have hroute : moncashRoute db0 now ftr fcid flid body =
      ⟨200, (dispatchPaymentEvent db0 now flid payment.payment_ref "payment.succeeded").db,
        [] ++ (dispatchPaymentEvent db0 now flid payment.payment_ref "payment.succeeded").trace,
        (dispatchPaymentEvent db0 now flid payment.payment_ref "payment.succeeded").jobs⟩ := by
    unfold moncashRoute
    rw [if_neg hcond, hu]
  obtain ⟨nl, hdb, hlen, hjlen, hlg, hjobs⟩ :=
    dispatchPaymentEvent_spec db0 now flid "payment.succeeded" payment hfind2
  unfold replayDispatchSpec
  rw [hroute]
  refine ⟨rfl, dispatchPaymentEvent_payments db0 now flid payment.payment_ref "payment.succeeded",
    hjlen, ?_, nl, ?_, hlen, hlg⟩
  · intro j hj
    obtain ⟨a1, a2, _, a4, a5⟩ := hjobs j hj
    exact ⟨a1, a2, a4, a5⟩
  · rw [hdb]

/-- C10 witness: the replayed completion callback on the completed demo
payment with one active wildcard-subscribed configuration. -/
theorem C10_replay_duplicate_dispatch_witness :
    demoCompletedPayment.status = PayStatus.completed ∧
    (subscribedWebhooks demoDbCompleted demoCompletedPayment "payment.succeeded").length = 1 ∧
    replayDispatchSpec demoDbCompleted demoCompletedPayment "payment.succeeded"
      (moncashRoute demoDbCompleted 30 "txn_d" 99 500
        { transactionId := some "ABC", orderId := some "O1" }) :=
  ⟨rfl, by decide,
    C10_replay_duplicate_dispatch demoDbCompleted 30 "txn_d" 99 500
      { transactionId := some "ABC", orderId := some "O1" } demoCompletedPayment
      (by decide) (by decide) (by decide) (by decide) (by decide)⟩

/-! ## C4 — idempotent create -/

/-- Cache lookup over an appended store: a miss on the prefix plus a matching
final entry yields that entry's value. -/
theorem redisGet_append_single (l : List RedisEntry) (e : RedisEntry) (key : String)
    (hmiss : redisGet l key = none) (hk : e.key = key) :
    redisGet (l ++ [e]) key = some e.value := by
  unfold redisGet at *
  rw [List.find?_append]
  have h1 : l.find? (fun x => x.key = key) = none := by
    rcases h : l.find? (fun x => x.key = key) with _ | v
    · exact h
    · rw [h] at hmiss
      simp at hmiss
  rw [h1, Option.none_or, List.find?_cons_of_pos _ (by simp [hk])]
  rfl

/-- C4 spec (amended): the replay returns the same body as the first request
— but with HTTP 200 where the first answered 201; the first call creates
exactly one payment row, one provider job (3 attempts, 2000 ms backoff) and
one 24-hour cache entry, and the replay performs no write at all. -/
def idempotentReplaySpec (sys0 : Sys) (k : String) (r1 r2 : CreateResult × Sys) : Prop :=
  ∃ body,
    r1.1 = CreateResult.created body ∧
    r2.1 = CreateResult.replay body ∧
    createHttpStatus r1.1 = 201 ∧
    createHttpStatus r2.1 = 200 ∧
    (∃ p : Payment, r1.2.db.payments = sys0.db.payments ++ [p] ∧ p.idempotency_key = some k) ∧
    (∃ e : RedisEntry, r1.2.redis = sys0.redis ++ [e] ∧ e.key = "idempotency:" ++ k ∧
      e.value = body ∧ e.ttl_seconds = 86400) ∧
    (∃ j : PaymentQueueAdd, r1.2.payment_jobs = sys0.payment_jobs ++ [j] ∧ j.attempts = 3 ∧
      j.backoff_delay = 2000) ∧
    r2.2 = r1.2

/-- C4 counterexample: the claim promises a byte-identical response on replay,
but the first request answers HTTP 201 while the cached replay is sent with
`reply.send` and answers HTTP 200 — the responses differ in status. -/
theorem C4_counterexample :
    createHttpStatus (createPayment demoSys 7 demoInput (some "k") 1000 1 "pay_a").1 = 201 ∧
    createHttpStatus (createPayment (createPayment demoSys 7 demoInput (some "k") 1000 1 "pay_a").2
      7 demoInput (some "k") 2000 2 "pay_b").1 = 200 ∧
    createHttpStatus (createPayment (createPayment demoSys 7 demoInput (some "k") 1000 1 "pay_a").2
        7 demoInput (some "k") 2000 2 "pay_b").1 ≠
      createHttpStatus (createPayment demoSys 7 demoInput (some "k") 1000 1 "pay_a").1 := by
  decide

/-- C4 amended: on a cache miss the first create inserts one payment row,
enqueues one provider job and caches the response body for 24 hours; the
second request with the same key replays exactly that body without touching
the database, the cache or the queue — but as HTTP 200, not 201. -/
theorem C4_idempotent_create (sys0 : Sys) (m : Nat) (input : CreateInput) (k : String)
    (now1 now2 id1 id2 : Nat) (ref1 ref2 : String)
    (hvalid : 0 < input.amount ∧ input.amount ≤ 10000000)
    (hmiss : redisGet sys0.redis ("idempotency:" ++ k) = none) :
    idempotentReplaySpec sys0 k
      (createPayment sys0 m input (some k) now1 id1 ref1)
      (createPayment (createPayment sys0 m input (some k) now1 id1 ref1).2
        m input (some k) now2 id2 ref2) := by
  have key1 : createPayment sys0 m input (some k) now1 id1 ref1 =
      (CreateResult.created (freshResponse input now1 ref1),
        ⟨{ sys0.db with payments := sys0.db.payments ++ [freshPaymentRow m input (some k) now1 id1 ref1] },
          sys0.redis ++ [⟨"idempotency:" ++ k, freshResponse input now1 ref1, 24 * 60 * 60⟩],
          sys0.payment_jobs ++ [freshJobAdd input ref1]⟩) := by
    unfold createPayment
    rw [if_neg (not_not_intro hvalid)]
    dsimp only [Option.bind]
    rw [hmiss]
    rfl
  rw [key1]
  have key2 : createPayment
      (⟨{ sys0.db with payments := sys0.db.payments ++ [freshPaymentRow m input (some k) now1 id1 ref1] },
        sys0.redis ++ [⟨"idempotency:" ++ k, freshResponse input now1 ref1, 24 * 60 * 60⟩],
        sys0.payment_jobs ++ [freshJobAdd input ref1]⟩ : Sys)
      m input (some k) now2 id2 ref2 =
      (CreateResult.replay (freshResponse input now1 ref1),
        ⟨{ sys0.db with payments := sys0.db.payments ++ [freshPaymentRow m input (some k) now1 id1 ref1] },
          sys0.redis ++ [⟨"idempotency:" ++ k, freshResponse input now1 ref1, 24 * 60 * 60⟩],
          sys0.payment_jobs ++ [freshJobAdd input ref1]⟩) := by
    unfold createPayment
    rw [if_neg (not_not_intro hvalid)]
    dsimp only [Option.bind]
    rw [redisGet_append_single sys0.redis
      ⟨"idempotency:" ++ k, freshResponse input now1 ref1, 24 * 60 * 60⟩
      ("idempotency:" ++ k) hmiss rfl]
  rw [key2]
  exact ⟨freshResponse input now1 ref1, rfl, rfl, rfl, rfl,
    ⟨freshPaymentRow m input (some k) now1 id1 ref1, rfl, rfl⟩,
    ⟨⟨"idempotency:" ++ k, freshResponse input now1 ref1, 24 * 60 * 60⟩, rfl, rfl, rfl, rfl⟩,
    ⟨freshJobAdd input ref1, rfl, rfl, rfl⟩, rfl⟩

/-- C4 witness: the amended statement holds on the empty demo system. -/
theorem C4_idempotent_create_witness :
    (0 < demoInput.amount ∧ demoInput.amount ≤ 10000000) ∧
    redisGet demoSys.redis ("idempotency:" ++ "k") = none ∧
    idempotentReplaySpec demoSys "k"
      (createPayment demoSys 7 demoInput (some "k") 1000 1 "pay_a")
      (createPayment (createPayment demoSys 7 demoInput (some "k") 1000 1 "pay_a").2
        7 demoInput (some "k") 2000 2 "pay_b") :=
  ⟨⟨by decide, by decide⟩, rfl,
    C4_idempotent_create demoSys 7 demoInput "k" 1000 2000 1 2 "pay_a" "pay_b"
      ⟨by decide, by decide⟩ rfl⟩

/-! ## C9 — fee invariant -/

/-- Subtraction of two hundredth-grids stays on the hundredth grid. -/
theorem divInt_sub_100 (n r : ℤ) :
    Rat.divInt n 100 - Rat.divInt r 100 = Rat.divInt (n - r) 100 := by
  rw [Rat.divInt_sub_divInt n r (by norm_num) (by norm_num),
    show n * 100 - r * 100 = (n - r) * 100 by ring]
  exact Rat.divInt_mul_right (by norm_num)

/-- Two-decimal rounding fixes any whole number of hundredths. -/
theorem round2_divInt_100 (n : ℤ) : round2 (Rat.divInt n 100) = Rat.divInt n 100 := by
  have hmul : qMul (Rat.divInt n 100) 100 = (n : ℚ) := by
    rw [qMul_eq, Rat.divInt_eq_div]
    push_cast
    rw [div_mul_cancel₀]
    norm_num
  unfold round2
  rw [hmul]
  have hr : roundQ ((n : ℚ)) = n := by
    unfold roundQ
    rw [Rat.num_intCast, Rat.den_intCast]
    rw [Int.fdiv_eq_ediv _ (by norm_num)]
    omega
  rw [hr]

/-- C9 spec: the row the create route inserts snapshots the fee-table rate,
computes `fee = round(amount × rate, 2)`, and stores
`net = round(amount − fee, 2)` — which equals `amount − fee` exactly when the
gross amount is a whole number of hundredths. -/
def feeComputationSpec (input : CreateInput) (p : Payment) : Prop :=
  p.amount = input.amount ∧
  p.fee_rate = some (FEE_RATES input.channel) ∧
  p.fee_amount = some (round2 (input.amount * FEE_RATES input.channel)) ∧
  p.net_amount = some (round2 (input.amount - round2 (input.amount * FEE_RATES input.channel))) ∧
  ((∃ n : ℤ, input.amount = Rat.divInt n 100) →
    p.net_amount = some (input.amount - round2 (input.amount * FEE_RATES input.channel)))

/-- C9 counterexample: for a gross amount of 1.006 (the API accepts any
positive number) the created row has `fee = 0.03 = round(1.006 × 0.025, 2)`
but `net = round(1.006 − 0.03, 2) = 0.98 ≠ 0.976 = amount − fee`, refuting
`net_amount = amount − fee_amount` as stated. -/
theorem C9_counterexample :
    ∃ p, (createPayment demoSys 7
        { amount := Rat.divInt 1006 1000, currency := Currency.HTG, channel := Channel.moncash }
        none 0 1 "pay_x").2.db.payments = [p] ∧
      p.fee_amount = some (Rat.divInt 3 100) ∧
      p.net_amount = some (Rat.divInt 49 50) ∧
      p.net_amount ≠ some (p.amount - p.fee_amount.getD 0) := by
  refine ⟨freshPaymentRow 7
    { amount := Rat.divInt 1006 1000, currency := Currency.HTG, channel := Channel.moncash }
    none 0 1 "pay_x", by decide, by decide, by decide, ?_⟩
  rw [← qSub_eq]
  decide

/-- C9 amended: on every created payment row the fee is
`round(amount × fee_rate, 2)` with the rate drawn from `FEE_RATES`, and the
stored net amount is `round(amount − fee, 2)` — equal to `amount − fee`
whenever the amount is a whole number of hundredths, but not in general; the
completion handler's recompute always restores `net = amount − fee` exactly. -/
theorem C9_fee_invariant (m : Nat) (input : CreateInput) (ik : Option String)
    (now fid : Nat) (fref : String) :
    feeComputationSpec input (freshPaymentRow m input ik now fid fref) ∧
    ∀ (q : Payment) (extra : UpdateExtra) (t : Nat),
      (applyStatusUpdate q PayStatus.completed extra t).net_amount =
        some (q.amount - q.fee_amount.getD 0) := by
  constructor
  · refine ⟨rfl, rfl, ?_, ?_, ?_⟩
    · show some (round2 (qMul input.amount (FEE_RATES input.channel))) = _
      rw [qMul_eq]
    · show some (round2 (qSub input.amount (round2 (qMul input.amount (FEE_RATES input.channel))))) = _
      rw [qSub_eq, qMul_eq]
    · rintro ⟨n, hn⟩
      show some (round2 (qSub input.amount (round2 (qMul input.amount (FEE_RATES input.channel))))) = _
      rw [qSub_eq, qMul_eq, hn]
      obtain ⟨r, hr⟩ : ∃ r : ℤ,
          round2 (Rat.divInt n 100 * FEE_RATES input.channel) = Rat.divInt r 100 := ⟨_, rfl⟩
      rw [hr, divInt_sub_100, round2_divInt_100]
  · intro q extra t
    rw [← qSub_eq]
    rfl

/-- C9 witness: the fee-computation part of the amended statement
instantiated on the demo input. -/
theorem C9_fee_invariant_witness :
    feeComputationSpec demoInput (freshPaymentRow 7 demoInput none 1000 1 "pay_a") :=
  (C9_fee_invariant 7 demoInput none 1000 1 "pay_a").1

/-! ## C6 — outbound delivery retry accounting -/

/-- C6 counterexample: with the demo log and a target that 500s four times and
then 200s, the delivery terminates `delivered` — but with `attempt_count = 1`,
not 5, because the attempt counter travels inside the immutable job data. -/
theorem C6_counterexample :
    (runWebhookJob demoWebhookData demoDbWithLog 100
      [HttpAttemptOutcome.http_error 500 "e1", HttpAttemptOutcome.http_error 500 "e2",
        HttpAttemptOutcome.http_error 500 "e3", HttpAttemptOutcome.http_error 500 "e4",
        HttpAttemptOutcome.success 200 "ok"] 5).finalFailed = false ∧
    (runWebhookJob demoWebhookData demoDbWithLog 100
      [HttpAttemptOutcome.http_error 500 "e1", HttpAttemptOutcome.http_error 500 "e2",
        HttpAttemptOutcome.http_error 500 "e3", HttpAttemptOutcome.http_error 500 "e4",
        HttpAttemptOutcome.success 200 "ok"] 5).attemptsMade = 5 ∧
    ((runWebhookJob demoWebhookData demoDbWithLog 100
      [HttpAttemptOutcome.http_error 500 "e1", HttpAttemptOutcome.http_error 500 "e2",
        HttpAttemptOutcome.http_error 500 "e3", HttpAttemptOutcome.http_error 500 "e4",
        HttpAttemptOutcome.success 200 "ok"] 5).db.webhook_logs.map
          (fun l => (l.status, l.attempt_count))) = [(WlStatus.delivered, 1)] ∧
    ¬ ((runWebhookJob demoWebhookData demoDbWithLog 100
      [HttpAttemptOutcome.http_error 500 "e1", HttpAttemptOutcome.http_error 500 "e2",
        HttpAttemptOutcome.http_error 500 "e3", HttpAttemptOutcome.http_error 500 "e4",
        HttpAttemptOutcome.success 200 "ok"] 5).db.webhook_logs.map
          WebhookLog.attempt_count = [5]) := by
  decide

set_option maxHeartbeats 2000000 in
/-- C6 amended: under 5xx on attempts 1–4 and 2xx on attempt 5 the log row
terminates `delivered` with `delivered_at`, `last_attempt_at`, the final HTTP
status and the response body trimmed to 500 characters — but `attempt_count`
stays at the job data's constant `attempt` value 1; and already the first
transient failure updates the row (`failed`, HTTP status, trimmed error
message, timestamp). -/
theorem C6_delivery_retry (t0 : Nat) (url secret : String) (pl : Payload)
    (mId : Nat) (evs : List String) (ps : List Payment) (ts : List Transaction)
    (cs : List Customer) (s1 s2 s3 s4 sOk : Nat) (m1 m2 m3 m4 bOk : String) (now : Nat)
    (h1 : 500 ≤ s1 ∧ s1 < 600) (h2 : 500 ≤ s2 ∧ s2 < 600) (h3 : 500 ≤ s3 ∧ s3 < 600)
    (h4 : 500 ≤ s4 ∧ s4 < 600) (hok : 200 ≤ sOk ∧ sOk < 300) :
    (runWebhookJob ⟨3, 1, "payment.succeeded", pl, 1⟩
      ⟨ps, ts, cs, [⟨3, mId, url, evs, secret, true⟩],
        [⟨11, 3, 1, "payment.succeeded", WlStatus.pending, none, none, 0, none, none, t0⟩]⟩ now
      [HttpAttemptOutcome.http_error s1 m1, HttpAttemptOutcome.http_error s2 m2,
        HttpAttemptOutcome.http_error s3 m3, HttpAttemptOutcome.http_error s4 m4,
        HttpAttemptOutcome.success sOk bOk] 5) =
      ⟨⟨ps, ts, cs, [⟨3, mId, url, evs, secret, true⟩],
        [⟨11, 3, 1, "payment.succeeded", WlStatus.delivered, some sOk, some (bOk.take 500), 1,
          some (now + 4), some (now + 4), t0⟩]⟩, 5, false⟩ ∧
    (deliverWebhook
      ⟨ps, ts, cs, [⟨3, mId, url, evs, secret, true⟩],
        [⟨11, 3, 1, "payment.succeeded", WlStatus.pending, none, none, 0, none, none, t0⟩]⟩ now
      ⟨3, 1, "payment.succeeded", pl, 1⟩ (HttpAttemptOutcome.http_error s1 m1)) =
      ⟨⟨ps, ts, cs, [⟨3, mId, url, evs, secret, true⟩],
        [⟨11, 3, 1, "payment.succeeded", WlStatus.failed, some s1, some (m1.take 500), 1,
          some now, none, t0⟩]⟩, true⟩ := by
  exact ⟨rfl, rfl⟩

/-- C6 witness: the amended statement at concrete statuses 500/200. -/
theorem C6_delivery_retry_witness :
    ((500:Nat) ≤ 500 ∧ (500:Nat) < 600) ∧ ((200:Nat) ≤ 200 ∧ (200:Nat) < 300) ∧
    (runWebhookJob ⟨3, 1, "payment.succeeded", buildPayload "payment.succeeded" 10 (paymentPayloadData demoCompletedPayment 10), 1⟩
      ⟨[], [], [], [⟨3, 7, "https://merchant.example/hook", ["*"], "whsec", true⟩],
        [⟨11, 3, 1, "payment.succeeded", WlStatus.pending, none, none, 0, none, none, 10⟩]⟩ 100
      [HttpAttemptOutcome.http_error 500 "e1", HttpAttemptOutcome.http_error 500 "e2",
        HttpAttemptOutcome.http_error 500 "e3", HttpAttemptOutcome.http_error 500 "e4",
        HttpAttemptOutcome.success 200 "ok"] 5).db.webhook_logs.map
          (fun l => (l.status, l.attempt_count, l.http_status, l.delivered_at)) =
      [(WlStatus.delivered, 1, some 200, some 104)] :=
  ⟨⟨by decide, by decide⟩, ⟨by decide, by decide⟩, by
    rw [(C6_delivery_retry 10 "https://merchant.example/hook" "whsec"
      (buildPayload "payment.succeeded" 10 (paymentPayloadData demoCompletedPayment 10)) 7 ["*"]
      [] [] [] 500 500 500 500 200 "e1" "e2" "e3" "e4" "ok" 100
      ⟨by decide, by decide⟩ ⟨by decide, by decide⟩ ⟨by decide, by decide⟩
      ⟨by decide, by decide⟩ ⟨by decide, by decide⟩).1]
    rfl⟩

/-! ## C7 — dead-letter queue routing -/

/-- C7: a payment job that fails on all 3 attempts rethrows each time (so the
queue retries), marks the payment `failed` with the provider error message —
but nothing is ever enqueued on `payments.dlq`: the embedding's `dlq_adds`
accumulator, faithful to a source that declares the queue and its worker but
contains no `dlqQueue.add` call, stays empty. -/
theorem C7_dlq_never_routed :
    (runPaymentJob 50 demoPaymentJob demoDbPending
      [ProviderOutcome.err "Connection timeout", ProviderOutcome.err "Connection timeout",
        ProviderOutcome.err "Connection timeout"] 3).attemptsMade = 3 ∧
    (runPaymentJob 50 demoPaymentJob demoDbPending
      [ProviderOutcome.err "Connection timeout", ProviderOutcome.err "Connection timeout",
        ProviderOutcome.err "Connection timeout"] 3).finalFailed = true ∧
    (runPaymentJob 50 demoPaymentJob demoDbPending
      [ProviderOutcome.err "Connection timeout", ProviderOutcome.err "Connection timeout",
        ProviderOutcome.err "Connection timeout"] 3).dlq_adds = [] ∧
    (runPaymentJob 50 demoPaymentJob demoDbPending
      [ProviderOutcome.err "Connection timeout", ProviderOutcome.err "Connection timeout",
        ProviderOutcome.err "Connection timeout"] 3).db.payments.map
        (fun p => (p.status, p.failure_reason)) = [(PayStatus.failed, some "Connection timeout")] ∧
    (processPayment demoDbPending 50 demoPaymentJob (ProviderOutcome.err "Connection timeout")).threw = true := by
  decide

/-! ## C8 — callback authentication -/

/-- C8 spec (amended): Stripe returns 400 with no state change when the
signature header is missing or verification throws, and 200 once verified;
MonCash returns 400 with no state change only when `transactionId` or
`orderId` is falsy — the amount is never validated — and 200 otherwise. -/
def callbackAuthSpec (db0 : Db) (now : Nat) (ftr : String) (fcid flid : Nat)
    (sig : Option String) (verified : Option StripeEvent) (body : MoncashBody) : Prop :=
  (¬ truthyOpt sig = true →
    stripeRoute db0 now ftr fcid flid sig verified = ⟨400, db0, [], []⟩) ∧
  (truthyOpt sig = true → verified = none →
    stripeRoute db0 now ftr fcid flid sig verified = ⟨400, db0, [], []⟩) ∧
  (truthyOpt sig = true → ∀ ev, verified = some ev →
    (stripeRoute db0 now ftr fcid flid sig verified).http_status = 200) ∧
  ((¬ truthyOpt body.transactionId = true ∨ ¬ truthyOpt body.orderId = true) →
    moncashRoute db0 now ftr fcid flid body = ⟨400, db0, [], []⟩) ∧
  (truthyOpt body.transactionId = true → truthyOpt body.orderId = true →
    (moncashRoute db0 now ftr fcid flid body).http_status = 200)

/-- C8 counterexample: a MonCash callback with `transactionId` and `orderId`
present but a non-numeric amount is not rejected — it returns 200 and changes
state (the pending demo payment is marked completed), contradicting the
claimed 400-before-any-state-change for callbacks without a numeric amount. -/
theorem C8_counterexample :
    (moncashRoute demoDbProcessing 9 "txn_x" 98 500
      { transactionId := some "ABC", orderId := some "O1", amount_string := some "abc" }).http_status = 200 ∧
    (moncashRoute demoDbProcessing 9 "txn_x" 98 500
      { transactionId := some "ABC", orderId := some "O1", amount_string := some "abc" }).http_status ≠ 400 ∧
    (moncashRoute demoDbProcessing 9 "txn_x" 98 500
      { transactionId := some "ABC", orderId := some "O1", amount_string := some "abc" }).db ≠ demoDbProcessing := by
  decide

/-- C8 amended: signature and structural checks gate both callback routes
before any state change, with 200 afterwards; MonCash checks only
`transactionId` and `orderId`. -/
theorem C8_callback_auth (db0 : Db) (now : Nat) (ftr : String) (fcid flid : Nat)
    (sig : Option String) (verified : Option StripeEvent) (body : MoncashBody) :
    callbackAuthSpec db0 now ftr fcid flid sig verified body := by
  refine ⟨?_, ?_, ?_, ?_, ?_⟩
  · intro h
    unfold stripeRoute
    rw [if_pos h]
  · intro h hv
    subst hv
    unfold stripeRoute
    rw [if_neg (not_not_intro h)]
  · intro h ev hv
    subst hv
    unfold stripeRoute
    rw [if_neg (not_not_intro h)]
    cases ev
    · dsimp only
      split <;> rfl
    · dsimp only
      split <;> rfl
    · dsimp only
      split <;> rfl
    · dsimp only
      split
      · split <;> rfl
      · rfl
    · rfl
  · intro h
    unfold moncashRoute
    rw [if_pos h]
  · intro h1 h2
    unfold moncashRoute
    rw [if_neg (by simp [h1, h2])]
    dsimp only
    split <;> rfl

/-- C8 witness: concrete applications of the amended statement — a missing
Stripe signature and a MonCash callback missing `orderId` both yield 400 with
the database untouched, while a structurally complete MonCash callback yields
200. -/
theorem C8_callback_auth_witness :
    stripeRoute demoDbCompleted 9 "txn_x" 98 500 none none = ⟨400, demoDbCompleted, [], []⟩ ∧
    moncashRoute demoDbCompleted 9 "txn_x" 98 500 { transactionId := some "ABC" } =
      ⟨400, demoDbCompleted, [], []⟩ ∧
    (moncashRoute demoDbPending 9 "txn_x" 98 500
      { transactionId := some "ABC", orderId := some "O1" }).http_status = 200 :=
  ⟨(C8_callback_auth demoDbCompleted 9 "txn_x" 98 500 none none
      { transactionId := some "ABC" }).1 (by decide),
   (C8_callback_auth demoDbCompleted 9 "txn_x" 98 500 none none
      { transactionId := some "ABC" }).2.2.2.1 (by decide),
   (C8_callback_auth demoDbPending 9 "txn_x" 98 500 none none
      { transactionId := some "ABC", orderId := some "O1" }).2.2.2.2 (by decide) (by decide)⟩

end DheCash
